import Mathlib

/-!
Verification development for the `pycord-paginator` repository
(`src/discord/ext/paginator/paginator.py`).

The Python `Paginator` class is shallowly embedded: its mutable object state
becomes the record `PagState`, and each method becomes a function that
threads the state explicitly.  A method that can raise returns either an
`Except PagError` result or a pair of the (partially) mutated state and an
optional raised error, matching Python semantics where attribute mutations
performed before a `raise` persist on the object.

Host-framework values (discord embeds, files, views, users, messages) are
opaque and identified by natural numbers; only their type tags matter to the
paginator logic.
-/

set_option autoImplicit false

/-- An opaque discord object that can appear inside a page's content list:
either an `Embed`, a `File`, or any other object (which fails both
`isinstance` checks in `get_page_content`). -/
inductive Obj : Type where
  | embed (id : Nat)
  | file (id : Nat)
  | other (id : Nat)
  deriving DecidableEq, Repr

/-- Modelled from the spec: the `Page` value object of the missing
`pages.py` module (`content`: optional text; `embeds`: ordered sequence;
`files`: ordered sequence; optional custom view and display callback). -/
structure Page : Type where
  content : Option String
  embeds : List Obj
  files : List Obj
  custom_view : Option Nat := Option.none
  callback : Option Nat := Option.none
  deriving DecidableEq, Repr

/-- One element of the Python `pages` list handed to the paginator.
`group` inlines the fields of the missing `pages.py` `PageGroup` class
(modelled from the spec: name, ordered page contents, `default` flag).
`other` stands for any object of an unsupported type. -/
inductive RawPage : Type where
  | page (p : Page)
  | str (s : String)
  | embed (id : Nat)
  | file (id : Nat)
  | objList (xs : List Obj)
  | group (name : String) (gpages : List RawPage) (gdefault : Bool)
  | other (id : Nat)

mutual

/-- Structural equality on page-list elements.  It models Python `==` as
used by `list.index` in the constructor: `PageGroup` defines no custom
`__eq__`, so Python compares by object identity; in this embedding two
groups are the same object exactly when they are the same value. -/
def RawPage.beq : RawPage → RawPage → Bool
  | .page p, .page q => decide (p = q)
  | .str s, .str t => decide (s = t)
  | .embed i, .embed j => decide (i = j)
  | .file i, .file j => decide (i = j)
  | .objList xs, .objList ys => decide (xs = ys)
  | .group n ps d, .group m qs e =>
      decide (n = m) && decide (d = e) && RawPage.beqList ps qs
  | .other i, .other j => decide (i = j)
  | _, _ => false

/-- Pointwise `RawPage.beq` on lists. -/
def RawPage.beqList : List RawPage → List RawPage → Bool
  | [], [] => true
  | x :: xs, y :: ys => RawPage.beq x y && RawPage.beqList xs ys
  | _, _ => false

end

instance : BEq RawPage := ⟨RawPage.beq⟩

/-- `isinstance(pg, PageGroup)` on a pages-list element. -/
def RawPage.isGroup : RawPage → Bool
  | .group _ _ _ => true
  | _ => false

/-- Attribute access `pg.default` on a `PageGroup`. -/
def RawPage.groupDefault : RawPage → Bool
  | .group _ _ d => d
  | _ => false

/-- Attribute access `pg.pages` on a `PageGroup`. -/
def RawPage.groupPages : RawPage → List RawPage
  | .group _ ps _ => ps
  | _ => []

/-- The `PaginatorButtonType` enum of the missing `buttons.py` module
(modelled from the spec: first / prev / page indicator / next / last /
custom). -/
inductive PaginatorButtonType : Type where
  | first
  | prev
  | page_indicator
  | next
  | last
  | custom
  deriving DecidableEq, Repr

/-- The visual style variants used by the default buttons. -/
inductive ButtonStyle : Type where
  | blurple
  | red
  | gray
  | green
  deriving DecidableEq, Repr

/-- Modelled from the spec: the `PaginatorButton` descriptor of the missing
`buttons.py` module.  `label` is the currently displayed label; `normalLabel`
models the `_label` attribute read by `update_buttons` (the label given at
registration, restored when leaving a loop boundary); `loop_label` is the
alternate label shown at a boundary when `loop_pages` is enabled. -/
structure PaginatorButton : Type where
  button_type : PaginatorButtonType
  label : Option String
  normalLabel : Option String
  loop_label : Option String := Option.none
  style : ButtonStyle := ButtonStyle.gray
  hidden : Bool := false
  disabled : Bool := false
  row : Int := 0
  emoji : Option String := Option.none
  deriving DecidableEq, Repr

/-- Modelled from the spec: the group-selector menu of the missing
`buttons.py` module, as constructed by `Paginator.add_menu` (it is bound to
the paginator's stored group list and placeholder text). -/
structure PaginatorMenu : Type where
  page_groups : Option (List RawPage)
  placeholder : String

/-- One entry of the view's interactive item list (`self.children` /
`add_item`).  Buttons are identified by their registry key, the group menu
by a marker, and the children of a custom view by that view's identity. -/
inductive Item : Type where
  | button (t : PaginatorButtonType)
  | menuItem
  | customItem (view : Nat)
  deriving DecidableEq, Repr

/-- The Python exceptions the paginator can raise, one constructor per
raise site:
* `onlyOneDefault` — `ValueError("Only one PageGroup can be set as the default.")`
  (`__init__` and `update`);
* `indexNotFound` — the `ValueError` raised by `self.page_groups.index(...)`
  when the sought object is not in the list (in particular `index(None)`);
* `mixedContentList` — `TypeError("All list items must be embeds or files.")`;
* `unsupportedContent` — `TypeError("Page content must be a Page object, ...")`;
* `buttonNotFound` — `ValueError("no button_type ... was found in this paginator.")`
  in `remove_button` (the spec taxonomy's LookupError);
* `keyError` — dictionary subscript on a missing button key;
* `indexError` — list subscript out of range (`self.pages[self.current_page]`);
* `ephemeralTimeout` — `ValueError("paginator responses cannot be ephemeral ...")`
  in `respond` (the spec taxonomy's ValidationError);
* `noneNotIterable` — `TypeError` from `interaction.user in self.users`
  when `self.users` is `None`;
* `messageNotSet` — `AttributeError` from using `self.message` while it is
  still `None` (the spec taxonomy's implicit NotReadyError). -/
inductive PagError : Type where
  | onlyOneDefault
  | indexNotFound
  | mixedContentList
  | unsupportedContent
  | buttonNotFound (t : PaginatorButtonType)
  | keyError (t : PaginatorButtonType)
  | indexError
  | ephemeralTimeout
  | noneNotIterable
  | messageNotSet
  deriving DecidableEq, Repr

/-- A Python value that distinguishes the `discord.MISSING` sentinel from
`None` and from a real value, as used by `Paginator.update`'s override
parameters. -/
inductive PyOpt (α : Type) : Type where
  | missing
  | none
  | some (a : α)
  deriving DecidableEq, Repr

/-- Coerce an ordinary optional value into the sentinel-aware type. -/
def PyOpt.ofOption {α : Type} : Option α → PyOpt α
  | Option.none => PyOpt.none
  | Option.some a => PyOpt.some a

/-- Python truthiness of a `MISSING | None | value` slot (`discord.MISSING`
and `None` are falsy; an object such as a `View` is truthy). -/
def PyOpt.truthy {α : Type} : PyOpt α → Bool
  | PyOpt.some _ => true
  | _ => false

/-! ### Python dictionary and list primitives

`self.buttons` is a Python `dict` keyed by `PaginatorButtonType`; it is
modelled as an insertion-ordered association list with unique keys. -/

/-- `d[k]`-style lookup returning the stored value, `Option.none` if the key
is absent (`k in d.keys()` is `(dictLookup d k).isSome`). -/
def dictLookup {α β : Type} [DecidableEq α] : List (α × β) → α → Option β
  | [], _ => Option.none
  | (x, v) :: rest, k => if x = k then Option.some v else dictLookup rest k

/-- `d[k]` subscript: raises `KeyError` when the key is absent. -/
def dictGet {β : Type} (d : List (PaginatorButtonType × β))
    (k : PaginatorButtonType) : Except PagError β :=
  match dictLookup d k with
  | Option.some v => Except.ok v
  | Option.none => Except.error (PagError.keyError k)

/-- `d[k] = v` assignment: replaces the value in place when the key exists,
otherwise appends the new pair (Python dicts preserve insertion order). -/
def dictSet {α β : Type} [DecidableEq α] : List (α × β) → α → β → List (α × β)
  | [], k, v => [(k, v)]
  | (x, w) :: rest, k, v =>
      if x = k then (k, v) :: rest else (x, w) :: dictSet rest k v

/-- `d.pop(k)`: removes the entry and returns its value together with the
remaining dictionary; `Option.none` models the `KeyError` case. -/
def dictPop {α β : Type} [DecidableEq α] : List (α × β) → α → Option (β × List (α × β))
  | [], _ => Option.none
  | (x, v) :: rest, k =>
      if x = k then Option.some (v, rest)
      else
        match dictPop rest k with
        | Option.none => Option.none
        | Option.some (w, rest') => Option.some (w, (x, v) :: rest')

/-- The entry of `d` with the key removed (specification-side companion of
`dictPop`, used to state what `remove_button` leaves behind). -/
def dictRemove {α β : Type} [DecidableEq α] : List (α × β) → α → List (α × β)
  | [], _ => []
  | (x, v) :: rest, k =>
      if x = k then rest else (x, v) :: dictRemove rest k

/-- Python list subscript `xs[i]` with negative-index support; an index out
of range raises `IndexError`. -/
def pyGetItem {α : Type} (xs : List α) (i : Int) : Except PagError α :=
  if 0 ≤ (if i < 0 then i + xs.length else i) then
    match xs.get? (if i < 0 then i + xs.length else i).toNat with
    | Option.some a => Except.ok a
    | Option.none => Except.error PagError.indexError
  else Except.error PagError.indexError

/-- `self.page_groups.index(default_group)` from `__init__` and `update`:
Python `list.index` raises `ValueError` when no element compares equal to
the argument; in particular `index(None)` always fails on a list of groups,
and `index` on the empty list always fails. -/
def pyIndex (xs : List RawPage) (target : Option RawPage) : Except PagError Int :=
  match target with
  | Option.none => Except.error PagError.indexNotFound
  | Option.some g =>
      match xs.findIdx? (fun x => RawPage.beq x g) with
      | Option.some i => Except.ok (i : Int)
      | Option.none => Except.error PagError.indexNotFound

/-! ### Page normalization (`Paginator.get_page_content`, lines 609-633) -/

/-- `isinstance(x, discord.Embed)` for a list element. -/
def Obj.isEmbed : Obj → Bool
  | .embed _ => true
  | _ => false

/-- `isinstance(x, discord.File)` for a list element. -/
def Obj.isFile : Obj → Bool
  | .file _ => true
  | _ => false

/-- `Paginator.get_page_content`: converts raw page content into a `Page`.
The `isinstance` dispatch order follows the source: `Page`, `str`,
`discord.Embed`, `discord.File`, `list` (all embeds, else all files, else
`TypeError`), and any other type (including a `PageGroup`) raises the
generic `TypeError`. -/
def get_page_content : RawPage → Except PagError Page
  | .page p => Except.ok p
  | .str s => Except.ok { content := Option.some s, embeds := [], files := [] }
  | .embed e => Except.ok { content := Option.none, embeds := [Obj.embed e], files := [] }
  | .file f => Except.ok { content := Option.none, embeds := [], files := [Obj.file f] }
  | .objList xs =>
      if xs.all Obj.isEmbed then
        Except.ok { content := Option.none, embeds := xs, files := [] }
      else if xs.all Obj.isFile then
        Except.ok { content := Option.none, embeds := [], files := xs }
      else Except.error PagError.mixedContentList
  | .group _ _ _ => Except.error PagError.unsupportedContent
  | .other _ => Except.error PagError.unsupportedContent

/-- `Paginator.get_page_group_content`: normalizes every page of a group in
order (list comprehension over `page_group.pages`). -/
def get_page_group_content (page_group : RawPage) : Except PagError (List Page) :=
  page_group.groupPages.mapM get_page_content

/-- The classification loop shared by `__init__` (lines 124-135) and
`update` (lines 257-270): walks the supplied page list, stops at the first
element that is not a `PageGroup` (`all_groups = False`), tracks the first
`default`-flagged group, and raises
`ValueError("Only one PageGroup can be set as the default.")` as soon as a
second default-flagged group is seen.  Returns `(all_groups, default_group)`. -/
def scanGroups : List RawPage → Option RawPage → Except PagError (Bool × Option RawPage)
  | [], default_group => Except.ok (true, default_group)
  | pg :: rest, default_group =>
      if pg.isGroup then
        if pg.groupDefault then
          match default_group with
          | Option.some _ => Except.error PagError.onlyOneDefault
          | Option.none => scanGroups rest (Option.some pg)
        else scanGroups rest default_group
      else Except.ok (false, default_group)

/-- The page-indicator label `f"{current_page + 1}/{page_count + 1}"`. -/
def indicatorLabel (current_page page_count : Int) : String :=
  toString (current_page + 1) ++ "/" ++ toString (page_count + 1)

/-! ### Paginator state and construction (`Paginator.__init__`, lines 84-167) -/

/-- The mutable attribute state of a `Paginator` object.  `timeout` uses
rationals for the float timeout (all values the logic compares against are
integral, so the `>= 900` comparison is exact); `users` holds the optional
allow-list; `custom_view` is sentinel-aware because `update` can assign the
`discord.MISSING` sentinel to it; `items` is the view's `children` list. -/
structure PagState : Type where
  timeout : Option Rat
  pages : List RawPage
  current_page : Int
  menu : Option PaginatorMenu
  show_menu : Bool
  menu_placeholder : String
  page_groups : Option (List RawPage)
  default_page_group : Int
  page_count : Int
  buttons : List (PaginatorButtonType × PaginatorButton)
  custom_buttons : Option (List PaginatorButton)
  show_disabled : Bool
  show_indicator : Bool
  disable_on_timeout : Bool
  use_default_buttons : Bool
  default_button_row : Int
  loop_pages : Bool
  custom_view : PyOpt Nat
  trigger_on_display : Option Bool
  message : Option Nat
  usercheck : Bool
  users : Option (List Nat)
  items : List Item

/-- The keyword arguments of `Paginator.__init__` with their source default
values. -/
structure InitArgs : Type where
  pages : List RawPage
  show_disabled : Bool := true
  show_indicator : Bool := true
  show_menu : Bool := false
  menu_placeholder : String := "Select Page Group"
  author_check : Bool := false
  disable_on_timeout : Bool := true
  use_default_buttons : Bool := true
  default_button_row : Int := 0
  loop_pages : Bool := false
  custom_view : Option Nat := Option.none
  timeout : Option Rat := Option.some 180
  custom_buttons : Option (List PaginatorButton) := Option.none
  trigger_on_display : Option Bool := Option.none
  users : Option (List Nat) := Option.none

/-- `Paginator.add_button` (lines 514-523): for the page-indicator button the
`hidden` flag is overwritten with `show_indicator` and, when neither a label
nor an emoji was given, the label is set to the indicator text; the button is
then stored in the registry under its type. -/
def Paginator.add_button (button : PaginatorButton) (s : PagState) : PagState :=
  let button :=
    if button.button_type = PaginatorButtonType.page_indicator then
      let button := { button with hidden := s.show_indicator }
      if button.label = Option.none ∧ button.emoji = Option.none then
        { button with
            label := Option.some (indicatorLabel s.current_page s.page_count) }
      else button
    else button
  { s with buttons := dictSet s.buttons button.button_type button }

/-- `Paginator.add_default_buttons` (lines 473-512): installs the fixed
five-button set.  In the modelled `PaginatorButton` constructor the stored
`_label` (`normalLabel`) is the label passed at construction. -/
def Paginator.add_default_buttons (s : PagState) : PagState :=
  let default_buttons : List PaginatorButton :=
    [ { button_type := PaginatorButtonType.first, label := Option.some "<<",
        normalLabel := Option.some "<<", style := ButtonStyle.blurple,
        row := s.default_button_row },
      { button_type := PaginatorButtonType.prev, label := Option.some "<",
        normalLabel := Option.some "<", style := ButtonStyle.red,
        loop_label := Option.some "↪", row := s.default_button_row },
      { button_type := PaginatorButtonType.page_indicator, label := Option.none,
        normalLabel := Option.none, style := ButtonStyle.gray,
        disabled := true, row := s.default_button_row },
      { button_type := PaginatorButtonType.next, label := Option.some ">",
        normalLabel := Option.some ">", style := ButtonStyle.green,
        loop_label := Option.some "↩", row := s.default_button_row },
      { button_type := PaginatorButtonType.last, label := Option.some ">>",
        normalLabel := Option.some ">>", style := ButtonStyle.blurple,
        row := s.default_button_row } ]
  default_buttons.foldl (fun st b => Paginator.add_button b st) s

/-- `Paginator.add_menu` (lines 467-471): builds a `PaginatorMenu` bound to
`self.page_groups` and the placeholder, stores it, and appends it to the
view's item list. -/
def Paginator.add_menu (s : PagState) : PagState :=
  let m : PaginatorMenu :=
    { page_groups := s.page_groups, placeholder := s.menu_placeholder }
  { s with menu := Option.some m, items := s.items ++ [Item.menuItem] }

/-- The infallible tail of `Paginator.__init__` (lines 144-167):
`page_count`, the button installation (`custom_buttons` only when
`use_default_buttons` is off; the default five-button set when
`custom_buttons` is falsy — `None` or empty — and defaults are on), and the
menu. -/
def Paginator.initTail (a : InitArgs) (s : PagState) : PagState :=
  let s := { s with page_count := max ((s.pages.length : Int) - 1) 0 }
  let s :=
    if a.custom_buttons ≠ Option.none ∧ ¬ a.use_default_buttons then
      (a.custom_buttons.getD []).foldl (fun st b => Paginator.add_button b st) s
    else if (a.custom_buttons.getD []).isEmpty ∧ a.use_default_buttons then
      Paginator.add_default_buttons s
    else s
  if s.show_menu then Paginator.add_menu s else s

/-- `Paginator.__init__` (lines 84-167).  Attribute initialisation, the
group-classification loop, the multi-group branch (where
`self.page_groups = self.pages if show_menu else []` happens *before* the
`index` lookup), then `page_count` and button/menu installation
(`Paginator.initTail`), in source order.  A raised exception surfaces as
`Except.error` (a half-constructed object is not observable from
`__init__`). -/
def Paginator.init (a : InitArgs) : Except PagError PagState :=
  let s : PagState :=
    { timeout := a.timeout
      pages := a.pages
      current_page := 0
      menu := Option.none
      show_menu := a.show_menu
      menu_placeholder := a.menu_placeholder
      page_groups := Option.none
      default_page_group := 0
      page_count := 0
      buttons := []
      custom_buttons := a.custom_buttons
      show_disabled := a.show_disabled
      show_indicator := a.show_indicator
      disable_on_timeout := a.disable_on_timeout
      use_default_buttons := a.use_default_buttons
      default_button_row := a.default_button_row
      loop_pages := a.loop_pages
      custom_view := PyOpt.ofOption a.custom_view
      trigger_on_display := a.trigger_on_display
      message := Option.none
      usercheck := a.author_check
      users := a.users
      items := [] }
  match scanGroups s.pages Option.none with
  | Except.error e => Except.error e
  | Except.ok (all_groups, default_group) =>
    if all_groups then
      let pgs := if a.show_menu then s.pages else []
      let s := { s with page_groups := Option.some pgs }
      match pyIndex pgs default_group with
      | Except.error e => Except.error e
      | Except.ok idx =>
        let s := { s with default_page_group := idx }
        match pyGetItem pgs idx with
        | Except.error e => Except.error e
        | Except.ok g =>
          match get_page_group_content g with
          | Except.error e => Except.error e
          | Except.ok content =>
            Except.ok (Paginator.initTail a { s with pages := content.map RawPage.page })
    else Except.ok (Paginator.initTail a s)

/-! ### Button state machine and rendering (`update_buttons`, lines 533-595) -/

/-- One iteration of the `for key, button in self.buttons.items()` loop of
`update_buttons` (lines 575-585): a non-indicator button has `disabled` set
from its `hidden` flag and is added to the view unless hidden with
`show_disabled = False`; the indicator is added exactly when
`show_indicator` is true.  Returns the (possibly mutated) button and the
items this iteration adds. -/
def renderEntry (show_disabled show_indicator : Bool)
    (key : PaginatorButtonType) (button : PaginatorButton) :
    PaginatorButton × List Item :=
  if key = PaginatorButtonType.page_indicator then
    (button, if show_indicator then [Item.button key] else [])
  else
    if button.hidden then
      ({ button with disabled := true },
       if show_disabled then [Item.button key] else [])
    else
      ({ button with disabled := false }, [Item.button key])

/-- The full `for key, button in self.buttons.items()` loop: `renderEntry`
over the registry in order, returning the registry with the `disabled`
mutations applied together with the items added. -/
def renderButtons (show_disabled show_indicator : Bool) :
    List (PaginatorButtonType × PaginatorButton) →
    List (PaginatorButtonType × PaginatorButton) × List Item
  | [] => ([], [])
  | (key, button) :: rest =>
      let e := renderEntry show_disabled show_indicator key button
      let r := renderButtons show_disabled show_indicator rest
      ((key, e.1) :: r.1, e.2 ++ r.2)

/-- `Paginator.update_custom_view` (lines 597-603): if the stored
`custom_view` is a real view its children are removed from the item list,
then the children of the supplied view are appended. -/
def Paginator.update_custom_view (custom_view : Nat) (s : PagState) : PagState :=
  let s :=
    match s.custom_view with
    | PyOpt.some w =>
        { s with items := s.items.filter (fun it => it ≠ Item.customItem w) }
    | _ => s
  { s with items := s.items ++ [Item.customItem custom_view] }

/-- The tail of `Paginator.update_buttons` (lines 575-595): the
`for key, button in self.buttons.items()` loop, the menu, and the custom
view, all infallible. -/
def Paginator.updateButtonsTail (s : PagState) : PagState × Option PagError :=
  let r := renderButtons s.show_disabled s.show_indicator s.buttons
  let s := { s with buttons := r.1, items := s.items ++ r.2 }
  let s := if s.show_menu then Paginator.add_menu s else s
  let s :=
    match s.custom_view with
    | PyOpt.some v => Paginator.update_custom_view v s
    | _ => s
  (s, Option.none)

/-- The `next`-button branch of `update_buttons` (lines 546-555): at
`current_page == page_count` without looping the button is hidden and its
label reset to `_label`; with looping only the label is assigned (`hidden`
keeps its previous value); at `current_page < page_count` the button is
shown with its normal label; for `current_page > page_count` nothing is
assigned. -/
def nextComputed (current_page page_count : Int) (loop_pages : Bool)
    (nb : PaginatorButton) : PaginatorButton :=
  if current_page = page_count then
    if ¬ loop_pages then { nb with hidden := true, label := nb.normalLabel }
    else { nb with label := nb.loop_label }
  else if current_page < page_count then
    { nb with hidden := false, label := nb.normalLabel }
  else nb

/-- The `prev`-button branch of `update_buttons` (lines 557-566):
symmetric to `nextComputed` at `current_page <= 0`; the final
`elif current_page >= 0` covers every remaining case because the first
branch took `current_page <= 0`. -/
def prevComputed (current_page : Int) (loop_pages : Bool)
    (pb : PaginatorButton) : PaginatorButton :=
  if current_page ≤ 0 then
    if ¬ loop_pages then { pb with hidden := true, label := pb.normalLabel }
    else { pb with label := pb.loop_label }
  else if current_page ≥ 0 then
    { pb with hidden := false, label := pb.normalLabel }
  else pb

/-- `Paginator.update_buttons` (lines 533-595).  In source order: the
`first`/`last` hidden flags, the `next` branch (`nextComputed`), the `prev`
branch (`prevComputed`), `clear_items`, the indicator label, and then the
item/menu/custom-view tail.  Each dictionary subscript can raise
`KeyError`; a raise leaves the mutations made so far in place, so the
function returns the state paired with the optional error. -/
def Paginator.update_buttons (s : PagState) : PagState × Option PagError :=
  match dictGet s.buttons PaginatorButtonType.first with
  | Except.error e => (s, Option.some e)
  | Except.ok fb =>
  let fb := { fb with hidden := decide (s.current_page ≤ 1) }
  let s := { s with buttons := dictSet s.buttons PaginatorButtonType.first fb }
  match dictGet s.buttons PaginatorButtonType.last with
  | Except.error e => (s, Option.some e)
  | Except.ok lb =>
  let lb := { lb with hidden := decide (s.current_page ≥ s.page_count - 1) }
  let s := { s with buttons := dictSet s.buttons PaginatorButtonType.last lb }
  match dictGet s.buttons PaginatorButtonType.next with
  | Except.error e => (s, Option.some e)
  | Except.ok nb =>
  let nb := nextComputed s.current_page s.page_count s.loop_pages nb
  let s := { s with buttons := dictSet s.buttons PaginatorButtonType.next nb }
  match dictGet s.buttons PaginatorButtonType.prev with
  | Except.error e => (s, Option.some e)
  | Except.ok pb =>
  let pb := prevComputed s.current_page s.loop_pages pb
  let s := { s with buttons := dictSet s.buttons PaginatorButtonType.prev pb }
  let s := { s with items := [] }
  if s.show_indicator then
    match dictGet s.buttons PaginatorButtonType.page_indicator with
    | Except.error e => (s, Option.some e)
    | Except.ok ib =>
      let ib := { ib with
        label := Option.some (indicatorLabel s.current_page s.page_count) }
      let s := { s with
        buttons := dictSet s.buttons PaginatorButtonType.page_indicator ib }
      Paginator.updateButtonsTail s
  else Paginator.updateButtonsTail s

/-- The render payload `_prepare` returns (the dict of content, embeds,
files and the view itself). -/
structure Payload : Type where
  content : Option String
  embeds : List Obj
  files : List Obj

/-- `Paginator._prepare` (lines 401-418): runs `update_buttons`, fetches the
current page with a Python subscript, normalizes it, swaps in the page's
custom view when it has one, and builds the payload.  File refreshing
(`update_files`) has no observable effect in this embedding. -/
def Paginator.prepare (update_files : Bool) (s : PagState) :
    PagState × Except PagError Payload :=
  match Paginator.update_buttons s with
  | (s, Option.some e) => (s, Except.error e)
  | (s, Option.none) =>
    match pyGetItem s.pages s.current_page with
    | Except.error e => (s, Except.error e)
    | Except.ok page =>
      match get_page_content page with
      | Except.error e => (s, Except.error e)
      | Except.ok page_content =>
        let s :=
          match page_content.custom_view with
          | Option.some v => Paginator.update_custom_view v s
          | Option.none => s
        let _ := update_files
        (s, Except.ok { content := page_content.content,
                        embeds := page_content.embeds,
                        files := page_content.files })

/-- `Paginator.goto_page` (lines 420-460): assigns
`self.current_page = page_number` with no clamping, runs `_prepare(True)`,
and edits the stored message (through the interaction followup or directly);
either path dereferences `self.message`, which raises when no message has
been sent yet.  The message edit itself is host I/O with no further state
effect. -/
def Paginator.goto_page (page_number : Int) (s : PagState) :
    PagState × Option PagError :=
  let s := { s with current_page := page_number }
  match Paginator.prepare true s with
  | (s, Except.error e) => (s, Option.some e)
  | (s, Except.ok _) =>
    match s.message with
    | Option.none => (s, Option.some PagError.messageNotSet)
    | Option.some _ => (s, Option.none)

/-! ### Reconfiguration (`Paginator.update`, lines 181-318) -/

/-- The keyword arguments of `Paginator.update` with their source defaults:
most parameters default to `None`, while `custom_view`, `timeout`,
`custom_buttons` and `users` default to the `discord.MISSING` sentinel. -/
structure UpdateArgs : Type where
  pages : Option (List RawPage) := Option.none
  show_disabled : Option Bool := Option.none
  show_indicator : Option Bool := Option.none
  show_menu : Option Bool := Option.none
  author_check : Option Bool := Option.none
  menu_placeholder : Option String := Option.none
  disable_on_timeout : Option Bool := Option.none
  use_default_buttons : Option Bool := Option.none
  default_button_row : Option Int := Option.none
  loop_pages : Option Bool := Option.none
  custom_view : PyOpt Nat := PyOpt.missing
  timeout : PyOpt Rat := PyOpt.missing
  custom_buttons : PyOpt (List PaginatorButton) := PyOpt.missing
  trigger_on_display : Option Bool := Option.none
  current_page : Int := 0
  users : PyOpt (List Nat) := PyOpt.missing

/-- The `if pages is not None:` block of `update` (lines 255-277): the
classification loop runs over the *argument* list, and in the multi-group
branch `self.page_groups = self.pages if show_menu else []` tests the local
`show_menu` parameter (truthy only when explicitly `True`) while reading the
already reassigned `self.pages`.  Each failure point returns the state as
mutated so far together with the raised error. -/
def Paginator.updateGroups (a : UpdateArgs) (s : PagState) :
    PagState × Option PagError :=
  match a.pages with
  | Option.none => (s, Option.none)
  | Option.some ps =>
    match scanGroups ps Option.none with
    | Except.error e => (s, Option.some e)
    | Except.ok (all_groups, default_group) =>
      if all_groups then
        let pgs := if a.show_menu = Option.some true then s.pages else []
        let s := { s with page_groups := Option.some pgs }
        match pyIndex pgs default_group with
        | Except.error e => (s, Option.some e)
        | Except.ok idx =>
          let s := { s with default_page_group := idx }
          match pyGetItem pgs idx with
          | Except.error e => (s, Option.some e)
          | Except.ok g =>
            match get_page_group_content g with
            | Except.error e => (s, Option.some e)
            | Except.ok content =>
              ({ s with pages := content.map RawPage.page }, Option.none)
      else (s, Option.none)

/-- The `# Apply config changes, if specified` block of `update` (lines
282-307), in source order.  `custom_view` is guarded by `is not None`
although its default is `discord.MISSING`, so an omitted `custom_view`
*is* assigned (storing the sentinel); `timeout`, `users` and
`custom_buttons` are correctly guarded by `is not discord.MISSING`. -/
def Paginator.applyConfig (a : UpdateArgs) (s : PagState) : PagState :=
  { s with
    show_disabled := a.show_disabled.getD s.show_disabled
    show_indicator := a.show_indicator.getD s.show_indicator
    usercheck := a.author_check.getD s.usercheck
    menu_placeholder := a.menu_placeholder.getD s.menu_placeholder
    disable_on_timeout := a.disable_on_timeout.getD s.disable_on_timeout
    use_default_buttons := a.use_default_buttons.getD s.use_default_buttons
    default_button_row := a.default_button_row.getD s.default_button_row
    loop_pages := a.loop_pages.getD s.loop_pages
    custom_view :=
      match a.custom_view with
      | PyOpt.none => s.custom_view
      | cv => cv
    timeout :=
      match a.timeout with
      | PyOpt.missing => s.timeout
      | PyOpt.none => Option.none
      | PyOpt.some t => Option.some t
    trigger_on_display :=
      match a.trigger_on_display with
      | Option.some v => Option.some v
      | Option.none => s.trigger_on_display
    users :=
      match a.users with
      | PyOpt.missing => s.users
      | PyOpt.none => Option.none
      | PyOpt.some us => Option.some us
    custom_buttons :=
      match a.custom_buttons with
      | PyOpt.missing => s.custom_buttons
      | PyOpt.none => Option.none
      | PyOpt.some bs => Option.some bs }

/-- The button-registry rebuild of `update` (lines 309-316): with
`use_default_buttons` the registry is cleared and the default set installed;
otherwise, when `custom_buttons` is not `None`, the registry is cleared and
the custom buttons re-added. -/
def Paginator.rebuildButtons (s : PagState) : PagState :=
  if s.use_default_buttons then
    Paginator.add_default_buttons { s with buttons := [] }
  else
    match s.custom_buttons with
    | Option.some bs =>
        bs.foldl (fun st b => Paginator.add_button b st) { s with buttons := [] }
    | Option.none => s

/-- `Paginator.update` (lines 181-318) in source order:
`self.pages = pages or self.pages` (an explicitly supplied *empty* list is
falsy and keeps the old pages), `self.show_menu`, the group block,
`page_count`, the `current_page` clamp (`current_page if current_page <=
self.page_count else 0` — negative requests pass the test), the config
overrides, the registry rebuild, and the final `goto_page` render. -/
def Paginator.update (a : UpdateArgs) (s : PagState) : PagState × Option PagError :=
  let s := { s with pages :=
      match a.pages with
      | Option.some ps => if ps.isEmpty then s.pages else ps
      | Option.none => s.pages }
  let s := { s with show_menu := a.show_menu.getD s.show_menu }
  match Paginator.updateGroups a s with
  | (s, Option.some e) => (s, Option.some e)
  | (s, Option.none) =>
    let s := { s with page_count := max ((s.pages.length : Int) - 1) 0 }
    let s := { s with current_page :=
        if a.current_page ≤ s.page_count then a.current_page else 0 }
    let s := Paginator.applyConfig a s
    let s := Paginator.rebuildButtons s
    Paginator.goto_page s.current_page s

/-! ### Interaction gate, button removal, responding -/

/-- `Paginator.interaction_check` (lines 462-465): with `usercheck` enabled
it evaluates `interaction.user in self.users`, which raises `TypeError`
when `self.users` is still `None`; otherwise it returns `True`. -/
def Paginator.interaction_check (s : PagState) (user : Nat) : Except PagError Bool :=
  if s.usercheck then
    match s.users with
    | Option.none => Except.error PagError.noneNotIterable
    | Option.some us => Except.ok (us.contains user)
  else Except.ok true

/-- `Paginator.remove_button` (lines 525-531): raises
`ValueError("no button_type ... was found in this paginator.")` when the
type is not a registry key, otherwise pops and returns the button. -/
def Paginator.remove_button (button_type : PaginatorButtonType) (s : PagState) :
    Except PagError (PaginatorButton × PagState) :=
  if (dictLookup s.buttons button_type).isNone then
    Except.error (PagError.buttonNotFound button_type)
  else
    match dictPop s.buttons button_type with
    | Option.some (b, rest) => Except.ok (b, { s with buttons := rest })
    | Option.none => Except.error (PagError.keyError button_type)

/-- `Paginator.respond` (lines 785-843): first the ephemeral/timeout
validation (`if ephemeral and (self.timeout is None or self.timeout >= 900)`),
then `_prepare` and the host `respond` call, after which the message handle
is stored. -/
def Paginator.respond (ephemeral : Bool) (s : PagState) : PagState × Option PagError :=
  if ephemeral ∧ (match s.timeout with
      | Option.none => true
      | Option.some t => decide (t ≥ 900)) = true then
    (s, Option.some PagError.ephemeralTimeout)
  else
    match Paginator.prepare false s with
    | (s, Except.error e) => (s, Option.some e)
    | (s, Except.ok _) => ({ s with message := Option.some 0 }, Option.none)

/-! ### Concrete states used by witnesses and counterexamples -/

/-- Fallback state (never reached by the concrete computations below; it
exists so that total extraction from `Except` results is possible). -/
def fallbackState : PagState :=
  { timeout := Option.some 180
    pages := []
    current_page := 0
    menu := Option.none
    show_menu := false
    menu_placeholder := "Select Page Group"
    page_groups := Option.none
    default_page_group := 0
    page_count := 0
    buttons := []
    custom_buttons := Option.none
    show_disabled := true
    show_indicator := true
    disable_on_timeout := true
    use_default_buttons := true
    default_button_row := 0
    loop_pages := false
    custom_view := PyOpt.none
    trigger_on_display := Option.none
    message := Option.none
    usercheck := false
    users := Option.none
    items := [] }

/-- The state of `Paginator(pages=["a"])` right after construction. -/
def onePageState : PagState :=
  match Paginator.init { pages := [RawPage.str "a"] } with
  | Except.ok s => s
  | Except.error _ => fallbackState

/-- `Paginator(pages=["a"])` after a successful first send (a message
handle is attached, so navigation no longer fails on `self.message`). -/
def readyOnePage : PagState := { onePageState with message := Option.some 0 }

/-- The state of `Paginator(pages=["a", "b"])` with a message attached. -/
def readyTwoPages : PagState :=
  match Paginator.init { pages := [RawPage.str "a", RawPage.str "b"] } with
  | Except.ok s => { s with message := Option.some 0 }
  | Except.error _ => fallbackState

/-- The update arguments of the C3 failing input: a page list of two
`PageGroup`s that are both flagged `default`. -/
def c3args : UpdateArgs :=
  { pages := Option.some
      [RawPage.group "x" [RawPage.str "p"] true,
       RawPage.group "y" [RawPage.str "q"] true] }

/-- The C4 failing input: a paginator whose `custom_view` is set. -/
def c4state : PagState := { readyOnePage with custom_view := PyOpt.some 7 }

/-- The state of a button in the registry right after a `update_buttons`
recomputation. -/
def buttonAfter (s : PagState) (t : PaginatorButtonType) : Option PaginatorButton :=
  dictLookup (Paginator.update_buttons s).fst.buttons t

/-- A `next` button registered with `hidden=True` (button state is
caller-controlled at registration) and a loop label. -/
def nbHidden : PaginatorButton :=
  { button_type := PaginatorButtonType.next
    label := Option.some ">"
    normalLabel := Option.some ">"
    loop_label := Option.some "L"
    hidden := true }

/-- A two-page paginator at its last page with `loop_pages` enabled whose
`next` button is currently hidden (as happens after rebuilding the registry
from custom buttons that were hidden by an earlier non-loop render, or by
registering a hidden button). -/
def c6state : PagState :=
  { readyTwoPages with
    loop_pages := true
    current_page := 1
    buttons := dictSet readyTwoPages.buttons PaginatorButtonType.next nbHidden }

/-- The `first` button of the default set as installed on `readyTwoPages`. -/
def defBtnFirst : PaginatorButton :=
  { button_type := PaginatorButtonType.first
    label := Option.some "<<"
    normalLabel := Option.some "<<"
    style := ButtonStyle.blurple }

/-- The `prev` button of the default set. -/
def defBtnPrev : PaginatorButton :=
  { button_type := PaginatorButtonType.prev
    label := Option.some "<"
    normalLabel := Option.some "<"
    loop_label := Option.some "↪"
    style := ButtonStyle.red }

/-- The page-indicator button of the default set after registration on a
two-page paginator at page 0 (label computed, hidden set from
`show_indicator`). -/
def defBtnIndicator : PaginatorButton :=
  { button_type := PaginatorButtonType.page_indicator
    label := Option.some "1/2"
    normalLabel := Option.none
    style := ButtonStyle.gray
    hidden := true
    disabled := true }

/-- The `next` button of the default set. -/
def defBtnNext : PaginatorButton :=
  { button_type := PaginatorButtonType.next
    label := Option.some ">"
    normalLabel := Option.some ">"
    loop_label := Option.some "↩"
    style := ButtonStyle.green }

/-- The `last` button of the default set. -/
def defBtnLast : PaginatorButton :=
  { button_type := PaginatorButtonType.last
    label := Option.some ">>"
    normalLabel := Option.some ">>"
    style := ButtonStyle.blurple }

/-! ### Lemmas and claim theorems -/

/-! ### Helper lemmas -/

theorem dictPop_eq {α β : Type} [DecidableEq α] (d : List (α × β)) (k : α) :
    dictPop d k =
      match dictLookup d k with
      | Option.none => Option.none
      | Option.some v => Option.some (v, dictRemove d k) := by
  induction d with
  | nil => rfl
  | cons hd tl ih =>
      obtain ⟨x, v⟩ := hd
      by_cases hx : x = k
      · simp [dictPop, dictLookup, dictRemove, hx]
      · simp only [dictPop, dictLookup, dictRemove, if_neg hx, ih]
        cases dictLookup tl k <;> simp

theorem dictGet_error {β : Type} {d : List (PaginatorButtonType × β)}
    {k : PaginatorButtonType} {e : PagError}
    (h : dictGet d k = Except.error e) : e = PagError.keyError k := by
  unfold dictGet at h
  cases hd : dictLookup d k <;> simp [hd] at h
  exact h.symm

theorem dictGet_error_iff {β : Type} {d : List (PaginatorButtonType × β)}
    {k : PaginatorButtonType} {e : PagError} :
    dictGet d k = Except.error e ↔
      dictLookup d k = Option.none ∧ e = PagError.keyError k := by
  unfold dictGet
  cases dictLookup d k <;> simp [eq_comm]

theorem pyGetItem_error {α : Type} {xs : List α} {i : Int} {e : PagError}
    (h : pyGetItem xs i = Except.error e) : e = PagError.indexError := by
  unfold pyGetItem at h
  repeat' split at h
  all_goals simp_all

theorem get_page_content_error {r : RawPage} {e : PagError}
    (h : get_page_content r = Except.error e) :
    e = PagError.mixedContentList ∨ e = PagError.unsupportedContent := by
  cases r <;> simp [get_page_content] at h <;> try simp [h]
  next xs =>
    split at h
    · simp_all
    · split at h <;> simp_all

@[simp]
theorem add_button_current_page (b : PaginatorButton) (s : PagState) :
    (Paginator.add_button b s).current_page = s.current_page := rfl

@[simp]
theorem add_button_page_count (b : PaginatorButton) (s : PagState) :
    (Paginator.add_button b s).page_count = s.page_count := rfl

@[simp]
theorem foldl_add_button_current_page (bs : List PaginatorButton) (s : PagState) :
    (bs.foldl (fun st b => Paginator.add_button b st) s).current_page =
      s.current_page := by
  induction bs generalizing s with
  | nil => rfl
  | cons b rest ih => simp [List.foldl, ih]

@[simp]
theorem foldl_add_button_page_count (bs : List PaginatorButton) (s : PagState) :
    (bs.foldl (fun st b => Paginator.add_button b st) s).page_count =
      s.page_count := by
  induction bs generalizing s with
  | nil => rfl
  | cons b rest ih => simp [List.foldl, ih]

@[simp]
theorem add_default_buttons_current_page (s : PagState) :
    (Paginator.add_default_buttons s).current_page = s.current_page := rfl

@[simp]
theorem add_default_buttons_page_count (s : PagState) :
    (Paginator.add_default_buttons s).page_count = s.page_count := rfl

@[simp]
theorem add_menu_current_page (s : PagState) :
    (Paginator.add_menu s).current_page = s.current_page := rfl

@[simp]
theorem add_menu_page_count (s : PagState) :
    (Paginator.add_menu s).page_count = s.page_count := rfl

@[simp]
theorem update_custom_view_current_page (v : Nat) (s : PagState) :
    (Paginator.update_custom_view v s).current_page = s.current_page := by
  unfold Paginator.update_custom_view
  split <;> rfl

@[simp]
theorem update_custom_view_page_count (v : Nat) (s : PagState) :
    (Paginator.update_custom_view v s).page_count = s.page_count := by
  unfold Paginator.update_custom_view
  split <;> rfl

@[simp]
theorem updateButtonsTail_fst_current_page (s : PagState) :
    (Paginator.updateButtonsTail s).fst.current_page = s.current_page := by
  simp only [Paginator.updateButtonsTail]
  repeat' split
  all_goals simp_all

@[simp]
theorem updateButtonsTail_fst_page_count (s : PagState) :
    (Paginator.updateButtonsTail s).fst.page_count = s.page_count := by
  simp only [Paginator.updateButtonsTail]
  repeat' split
  all_goals simp_all

set_option maxHeartbeats 1000000 in
theorem update_buttons_fst_current_page (s : PagState) :
    (Paginator.update_buttons s).fst.current_page = s.current_page := by
  simp only [Paginator.update_buttons]
  repeat' split
  all_goals simp_all

set_option maxHeartbeats 1000000 in
theorem update_buttons_fst_page_count (s : PagState) :
    (Paginator.update_buttons s).fst.page_count = s.page_count := by
  simp only [Paginator.update_buttons]
  repeat' split
  all_goals simp_all

@[simp]
theorem updateButtonsTail_snd (s : PagState) :
    (Paginator.updateButtonsTail s).snd = Option.none := by
  simp only [Paginator.updateButtonsTail]

set_option maxHeartbeats 1000000 in
theorem update_buttons_snd_ne_eph (s : PagState) :
    (Paginator.update_buttons s).snd ≠ Option.some PagError.ephemeralTimeout := by
  simp only [Paginator.update_buttons]
  repeat' split
  all_goals simp_all [dictGet_error_iff]

theorem prepare_fst_current_page (uf : Bool) (s : PagState) :
    (Paginator.prepare uf s).fst.current_page = s.current_page := by
  have h1 := update_buttons_fst_current_page s
  simp only [Paginator.prepare]
  repeat' split
  all_goals simp_all

theorem prepare_fst_page_count (uf : Bool) (s : PagState) :
    (Paginator.prepare uf s).fst.page_count = s.page_count := by
  have h1 := update_buttons_fst_page_count s
  simp only [Paginator.prepare]
  repeat' split
  all_goals simp_all

theorem prepare_snd_ne_eph (uf : Bool) (s : PagState) :
    (Paginator.prepare uf s).snd ≠ Except.error PagError.ephemeralTimeout := by
  have h1 := update_buttons_snd_ne_eph s
  simp only [Paginator.prepare]
  rcases hub : Paginator.update_buttons s with ⟨s1, err⟩
  rw [hub] at h1
  rcases err with _ | e
  · simp only
    cases hpg : pyGetItem s1.pages s1.current_page with
    | error e => simp [hpg, pyGetItem_error hpg]
    | ok page =>
      cases hgc : get_page_content page with
      | error e => rcases get_page_content_error hgc with h | h <;> simp [hgc, h]
      | ok pc => simp [hgc]
  · simpa using fun hc => h1 (by simp [hc])

theorem goto_page_fst_current_page (n : Int) (s : PagState) :
    (Paginator.goto_page n s).fst.current_page = n := by
  have h1 := prepare_fst_current_page true { s with current_page := n }
  simp only [Paginator.goto_page]
  repeat' split
  all_goals simp_all

theorem goto_page_fst_page_count (n : Int) (s : PagState) :
    (Paginator.goto_page n s).fst.page_count = s.page_count := by
  have h1 := prepare_fst_page_count true { s with current_page := n }
  simp only [Paginator.goto_page]
  repeat' split
  all_goals simp_all

@[simp]
theorem initTail_current_page (a : InitArgs) (s : PagState) :
    (Paginator.initTail a s).current_page = s.current_page := by
  simp only [Paginator.initTail]
  repeat' split
  all_goals simp_all

@[simp]
theorem initTail_page_count (a : InitArgs) (s : PagState) :
    (Paginator.initTail a s).page_count = max ((s.pages.length : Int) - 1) 0 := by
  simp only [Paginator.initTail]
  repeat' split
  all_goals simp_all

theorem init_ok_current_page {a : InitArgs} {s : PagState}
    (h : Paginator.init a = Except.ok s) :
    s.current_page = 0 ∧ 0 ≤ s.page_count ∧ s.current_page ≤ s.page_count := by
  simp only [Paginator.init] at h
  repeat' split at h
  all_goals simp_all
  all_goals
    (refine ⟨?_, ?_⟩ <;>
      first
        | rfl
        | (rw [← h]; simp))

@[simp]
theorem applyConfig_current_page (a : UpdateArgs) (s : PagState) :
    (Paginator.applyConfig a s).current_page = s.current_page := rfl

@[simp]
theorem applyConfig_page_count (a : UpdateArgs) (s : PagState) :
    (Paginator.applyConfig a s).page_count = s.page_count := rfl

@[simp]
theorem rebuildButtons_current_page (s : PagState) :
    (Paginator.rebuildButtons s).current_page = s.current_page := by
  simp only [Paginator.rebuildButtons]
  repeat' split
  all_goals simp_all

@[simp]
theorem rebuildButtons_page_count (s : PagState) :
    (Paginator.rebuildButtons s).page_count = s.page_count := by
  simp only [Paginator.rebuildButtons]
  repeat' split
  all_goals simp_all

theorem update_ok_invariant {a : UpdateArgs} {s s2 : PagState}
    (h : Paginator.update a s = (s2, Option.none)) (hcp : 0 ≤ a.current_page) :
    0 ≤ s2.current_page ∧ s2.current_page ≤ s2.page_count := by
  simp only [Paginator.update] at h
  split at h
  · simp_all
  · have h1 := congrArg Prod.fst h
    simp only at h1
    rw [← h1, goto_page_fst_current_page, goto_page_fst_page_count]
    simp only [applyConfig_current_page, applyConfig_page_count,
      rebuildButtons_current_page, rebuildButtons_page_count]
    split_ifs <;> constructor <;> omega

/-! ### Claims -/

/-- C8: constructing a `Paginator` with an empty page list raises an error
rather than producing a paginator with zero pages: the empty list is
classified as multi-group mode (`all_groups` is vacuously true), and
`[].index(None)` raises `ValueError`. -/
theorem c8_empty_pages_raises :
    Paginator.init { pages := [] } = Except.error PagError.indexNotFound := rfl

/-- C10: page normalization of an empty list returns a `Page` with no
content, an empty embeds sequence, and an empty files sequence — the
`all(isinstance(x, Embed))` check is vacuously true for `[]`, so no
mixed-content error is raised. -/
theorem c10_empty_list_normalization :
    get_page_content (RawPage.objList []) =
      Except.ok { content := Option.none, embeds := [], files := [] } := rfl

/-- C9: if `author_check` is enabled (`usercheck`) but the authorized user
set was never supplied (`users` is `None`), `interaction_check` raises the
`TypeError` from the membership test on `None` instead of returning
`False`. -/
theorem c9_interaction_check_raises (s : PagState) (user : Nat)
    (h1 : s.usercheck = true) (h2 : s.users = Option.none) :
    Paginator.interaction_check s user = Except.error PagError.noneNotIterable := by
  unfold Paginator.interaction_check
  rw [h1, h2]
  simp

/-- Witness for C9 at a concrete paginator: `Paginator(pages=["a"],
author_check=True)` (no `users` supplied) with message attached. -/
theorem c9_witness :
    Paginator.interaction_check { readyOnePage with usercheck := true } 7 =
      Except.error PagError.noneNotIterable :=
  c9_interaction_check_raises { readyOnePage with usercheck := true } 7 rfl rfl

/-- C5: `remove_button` raises the registry-lookup error (the spec
taxonomy's LookupError; in the source a `ValueError` with message
"no button_type ... was found in this paginator.") exactly when the button
type is not a registry key, and otherwise pops and returns the stored
button, removing it from the registry. -/
theorem c5_remove_button (s : PagState) (t : PaginatorButtonType) :
    Paginator.remove_button t s =
      match dictLookup s.buttons t with
      | Option.none => Except.error (PagError.buttonNotFound t)
      | Option.some b =>
          Except.ok (b, { s with buttons := dictRemove s.buttons t }) := by
  unfold Paginator.remove_button
  cases hd : dictLookup s.buttons t with
  | none => simp [hd]
  | some b => simp [hd, dictPop_eq]

/-- C2 (code evaluation at the failing inputs): with every element a
`PageGroup` and no `default` flag, construction raises `ValueError` from
`[].index(None)` (with the default `show_menu=False`, `self.page_groups` is
`[]` before the lookup), instead of succeeding with the group at index 0;
even a single `default=True` group fails under `show_menu=False`; only
`show_menu=True` with exactly one default group succeeds, yielding that
group's normalized content. -/
theorem c2_code_eval :
    Paginator.init { pages := [RawPage.group "g" [RawPage.str "a"] false] } =
      Except.error PagError.indexNotFound ∧
    Paginator.init { pages := [RawPage.group "g" [RawPage.str "a"] true] } =
      Except.error PagError.indexNotFound ∧
    Except.map PagState.pages
        (Paginator.init
          { pages := [RawPage.group "g" [RawPage.str "a"] true], show_menu := true }) =
      Except.ok [RawPage.page { content := Option.some "a", embeds := [], files := [] }] :=
  ⟨rfl, rfl, rfl⟩

/-- C3 (code evaluation at the failing input): `update` with two
default-flagged groups raises the two-defaults `ValueError`, but
`self.pages` has already been reassigned (line 252 runs before the
validation loop), so the paginator keeps the new two-element list instead
of its previous one-element list — a partial mutation. -/
theorem c3_partial_mutation :
    (Paginator.update c3args readyOnePage).snd =
      Option.some PagError.onlyOneDefault ∧
    (Paginator.update c3args readyOnePage).fst.pages.length = 2 ∧
    readyOnePage.pages.length = 1 :=
  ⟨rfl, rfl, rfl⟩

/-- C4 (code evaluation at the failing input): calling `update()` with every
parameter omitted succeeds, leaves `timeout`, `users`, `custom_buttons` and
`pages` unchanged, but *clears* `custom_view` to the `discord.MISSING`
sentinel: the guard at line 298 tests `custom_view is not None` although the
parameter's default is `discord.MISSING`. -/
theorem c4_omission_clobbers_custom_view :
    c4state.custom_view = PyOpt.some 7 ∧
    (Paginator.update {} c4state).snd = Option.none ∧
    (Paginator.update {} c4state).fst.custom_view = PyOpt.missing ∧
    (Paginator.update {} c4state).fst.timeout = c4state.timeout ∧
    (Paginator.update {} c4state).fst.users = c4state.users ∧
    (Paginator.update {} c4state).fst.custom_buttons = c4state.custom_buttons ∧
    (Paginator.update {} c4state).fst.pages = c4state.pages :=
  ⟨rfl, rfl, rfl, rfl, rfl, rfl, rfl⟩

/-- C1 counterexample: the claim "current_page lies within [0, page_count]
after every update and gotoPage call" is false.  `goto_page(5)` on a
one-page paginator stores `current_page = 5 > page_count = 0` (no clamping
at line 444), and `update(current_page=-1)` on a two-page paginator
*succeeds* while storing `current_page = -1 < 0` (the clamp at line 280
only tests the upper bound). -/
theorem c1_counterexample :
    (Paginator.goto_page 5 readyOnePage).fst.current_page = 5 ∧
    (Paginator.goto_page 5 readyOnePage).fst.page_count = 0 ∧
    ¬ ((Paginator.goto_page 5 readyOnePage).fst.current_page ≤
        (Paginator.goto_page 5 readyOnePage).fst.page_count) ∧
    (Paginator.update { current_page := -1 } readyTwoPages).snd = Option.none ∧
    (Paginator.update { current_page := -1 } readyTwoPages).fst.current_page = -1 := by
  refine ⟨rfl, rfl, ?_, rfl, rfl⟩
  decide

/-- C1 amended: after successful construction `current_page = 0` lies in
`[0, page_count]`; after a successful `update` whose requested page is
nonnegative the invariant holds (the request is clamped to 0 only when it
exceeds `page_count`); `goto_page` performs no clamping at all — it stores
exactly its argument (and leaves `page_count` unchanged), so after
`goto_page(n)` the invariant holds iff `0 ≤ n ≤ page_count`. -/
theorem c1_amended :
    (∀ (a : InitArgs) (s : PagState), Paginator.init a = Except.ok s →
        0 ≤ s.current_page ∧ s.current_page ≤ s.page_count) ∧
    (∀ (a : UpdateArgs) (s s2 : PagState),
        Paginator.update a s = (s2, Option.none) → 0 ≤ a.current_page →
        0 ≤ s2.current_page ∧ s2.current_page ≤ s2.page_count) ∧
    (∀ (n : Int) (s : PagState),
        (Paginator.goto_page n s).fst.current_page = n ∧
        (Paginator.goto_page n s).fst.page_count = s.page_count) := by
  refine ⟨?_, ?_, ?_⟩
  · intro a s h
    obtain ⟨h0, h1, h2⟩ := init_ok_current_page h
    omega
  · intro a s s2 h hcp
    exact update_ok_invariant h hcp
  · intro n s
    exact ⟨goto_page_fst_current_page n s, goto_page_fst_page_count n s⟩

/-- Witness for C1 amended, at `Paginator(pages=["a"])`: construction,
a parameterless `update` after the first send, and `goto_page(0)`. -/
theorem c1_amended_witness :
    (0 ≤ onePageState.current_page ∧
      onePageState.current_page ≤ onePageState.page_count) ∧
    (0 ≤ (Paginator.update {} readyOnePage).fst.current_page ∧
      (Paginator.update {} readyOnePage).fst.current_page ≤
        (Paginator.update {} readyOnePage).fst.page_count) ∧
    ((Paginator.goto_page 0 readyOnePage).fst.current_page = 0 ∧
      (Paginator.goto_page 0 readyOnePage).fst.page_count =
        readyOnePage.page_count) := by
  refine ⟨?_, ?_, ?_⟩
  · exact c1_amended.1 { pages := [RawPage.str "a"] } onePageState rfl
  · exact c1_amended.2.1 {} readyOnePage (Paginator.update {} readyOnePage).fst rfl
      (by decide)
  · exact c1_amended.2.2 0 readyOnePage

/-- C7: `respond` raises the ephemeral/timeout `ValueError` (the spec
taxonomy's ValidationError) if and only if `ephemeral` is true and the
stored timeout is `None` or at least 900 seconds; no other part of
`respond` can produce this error, so with `ephemeral=True`, `timeout=600`
passes this validation while `timeout=None` or `timeout=900` raise. -/
theorem c7_respond_validation (s : PagState) (ephemeral : Bool) :
    (Paginator.respond ephemeral s).snd = Option.some PagError.ephemeralTimeout ↔
      ephemeral = true ∧
        (s.timeout = Option.none ∨
          ∃ t, s.timeout = Option.some t ∧ (900 : Rat) ≤ t) := by
  unfold Paginator.respond
  split
  next hc =>
    obtain ⟨he, hm⟩ := hc
    simp only [he, true_and]
    cases ht : s.timeout with
    | none => simp
    | some t =>
        rw [ht] at hm
        simp only [decide_eq_true_eq, ge_iff_le] at hm
        exact iff_of_true (by trivial) (Or.inr ⟨t, rfl, hm⟩)
  next hc =>
    rw [not_and_or] at hc
    constructor
    · intro hcon
      exfalso
      rcases hp : Paginator.prepare false s with ⟨s1, r⟩
      rw [hp] at hcon
      have hne := prepare_snd_ne_eph false s
      rw [hp] at hne
      cases r with
      | error e => simp at hcon; simp [hcon] at hne
      | ok p => simp at hcon
    · rintro ⟨he, hor⟩
      exfalso
      rcases hc with hc | hc
      · exact hc he
      · apply hc
        rcases hor with hn | ⟨t, ht, hge⟩
        · rw [hn]
        · rw [ht]
          simpa using hge

/-- C6 counterexample: the claim says that with `loop_pages=true` at
`current_page == page_count` the next button is *visible* with its loop
label.  On this reachable state the recomputation assigns the loop label
but leaves `hidden` untouched (the loop branch at lines 551-552 never
clears it), so the button stays hidden. -/
theorem c6_counterexample :
    c6state.loop_pages = true ∧
    c6state.page_count = 1 ∧
    c6state.current_page = c6state.page_count ∧
    (Paginator.update_buttons c6state).snd = Option.none ∧
    Option.map PaginatorButton.label (buttonAfter c6state PaginatorButtonType.next) =
      Option.some (Option.some "L") ∧
    Option.map PaginatorButton.hidden (buttonAfter c6state PaginatorButtonType.next) =
      Option.some true :=
  ⟨rfl, rfl, rfl, rfl, rfl, rfl⟩

@[simp]
theorem add_menu_buttons (s : PagState) :
    (Paginator.add_menu s).buttons = s.buttons := rfl

@[simp]
theorem update_custom_view_buttons (v : Nat) (s : PagState) :
    (Paginator.update_custom_view v s).buttons = s.buttons := by
  unfold Paginator.update_custom_view
  split <;> rfl

@[simp]
theorem updateButtonsTail_buttons (s : PagState) :
    (Paginator.updateButtonsTail s).fst.buttons =
      (renderButtons s.show_disabled s.show_indicator s.buttons).1 := by
  simp only [Paginator.updateButtonsTail]
  repeat' split
  all_goals simp_all

@[simp]
theorem dictLookup_dictSet {α β : Type} [DecidableEq α]
    (d : List (α × β)) (k k' : α) (v : β) :
    dictLookup (dictSet d k v) k' =
      if k = k' then Option.some v else dictLookup d k' := by
  induction d with
  | nil => simp [dictSet, dictLookup]
  | cons hd tl ih =>
      obtain ⟨x, w⟩ := hd
      by_cases hx : x = k
      · subst hx
        by_cases hk : x = k' <;> simp [dictSet, dictLookup, hk]
      · have hx2 : ¬ k = x := fun h => hx h.symm
        by_cases hk' : x = k' <;> simp_all [dictSet, dictLookup]

theorem renderEntry_fst (shd shi : Bool) (k : PaginatorButtonType)
    (b : PaginatorButton) :
    (renderEntry shd shi k b).1 =
      if k = PaginatorButtonType.page_indicator then b
      else { b with disabled := b.hidden } := by
  unfold renderEntry
  by_cases hk : k = PaginatorButtonType.page_indicator
  · simp [hk]
  · by_cases hb : b.hidden <;> simp [hk, hb]

theorem dictLookup_renderButtons (shd shi : Bool)
    (d : List (PaginatorButtonType × PaginatorButton)) (k : PaginatorButtonType) :
    dictLookup (renderButtons shd shi d).1 k =
      Option.map
        (fun b => if k = PaginatorButtonType.page_indicator
          then b else { b with disabled := b.hidden })
        (dictLookup d k) := by
  induction d with
  | nil => simp [renderButtons, dictLookup]
  | cons hd tl ih =>
      obtain ⟨x, b⟩ := hd
      by_cases hxk : x = k
      · subst hxk
        simp [renderButtons, dictLookup, renderEntry_fst]
      · simp [renderButtons, dictLookup, hxk, ih]

/-- Characterization of a successful `update_buttons` run: when all five
standard keys are in the registry, no `KeyError` is raised and the
resulting registry is the item-loop rendering of the registry with the
first/last/next/prev mutations (and the indicator label when
`show_indicator`) applied. -/
theorem update_buttons_chr (s : PagState)
    (b1 pb ib nb lb : PaginatorButton)
    (hf : dictLookup s.buttons PaginatorButtonType.first = Option.some b1)
    (hlst : dictLookup s.buttons PaginatorButtonType.last = Option.some lb)
    (hnx : dictLookup s.buttons PaginatorButtonType.next = Option.some nb)
    (hpv : dictLookup s.buttons PaginatorButtonType.prev = Option.some pb)
    (hin : dictLookup s.buttons PaginatorButtonType.page_indicator = Option.some ib) :
    (Paginator.update_buttons s).snd = Option.none ∧
    (Paginator.update_buttons s).fst.buttons =
      (renderButtons s.show_disabled s.show_indicator
        (let d4 :=
          dictSet (dictSet (dictSet (dictSet s.buttons
            PaginatorButtonType.first { b1 with hidden := decide (s.current_page ≤ 1) })
            PaginatorButtonType.last
              { lb with hidden := decide (s.current_page ≥ s.page_count - 1) })
            PaginatorButtonType.next
              (nextComputed s.current_page s.page_count s.loop_pages nb))
            PaginatorButtonType.prev (prevComputed s.current_page s.loop_pages pb)
         if s.show_indicator then
           dictSet d4 PaginatorButtonType.page_indicator
             { ib with label := Option.some (indicatorLabel s.current_page s.page_count) }
         else d4)).1 := by
  refine ⟨?_, ?_⟩ <;>
    (by_cases hshi : s.show_indicator <;>
      simp only [Paginator.update_buttons, dictGet, hf, dictLookup_dictSet, hshi,
        updateButtonsTail_snd, updateButtonsTail_buttons, hlst, hnx, hpv, hin,
        reduceCtorEq, if_false, if_true, reduceIte])

/-- C6 amended: for a paginator whose registry holds the standard five
buttons (in the order the default set installs them) and whose current page
is within `[0, page_count]` with `page_count >= 1`, after `update_buttons`:
with `loop_pages=false` the prev button is hidden exactly when
`current_page <= 0` and the next button exactly when
`current_page == page_count`, labels reset to normal; with
`loop_pages=true`, at the boundaries only the *label* is set to the loop
label while the `hidden` flag keeps its previous value (so the button is
visible iff it was not already hidden — the claim's unconditional
"visible" is what fails); at interior pages both are visible with normal
labels. -/
theorem c6_amended (s : PagState) (b1 pb ib nb lb : PaginatorButton)
    (hreg : s.buttons =
      [(PaginatorButtonType.first, b1), (PaginatorButtonType.prev, pb),
       (PaginatorButtonType.page_indicator, ib), (PaginatorButtonType.next, nb),
       (PaginatorButtonType.last, lb)])
    (h0 : 0 ≤ s.current_page) (h1 : s.current_page ≤ s.page_count)
    (hpc : 1 ≤ s.page_count) :
    (Paginator.update_buttons s).snd = Option.none ∧
    (s.loop_pages = false →
      Option.map PaginatorButton.hidden (buttonAfter s PaginatorButtonType.prev) =
        Option.some (decide (s.current_page ≤ 0)) ∧
      Option.map PaginatorButton.label (buttonAfter s PaginatorButtonType.prev) =
        Option.some pb.normalLabel ∧
      Option.map PaginatorButton.hidden (buttonAfter s PaginatorButtonType.next) =
        Option.some (decide (s.current_page = s.page_count)) ∧
      Option.map PaginatorButton.label (buttonAfter s PaginatorButtonType.next) =
        Option.some nb.normalLabel) ∧
    (s.loop_pages = true →
      (s.current_page = 0 →
        Option.map PaginatorButton.hidden (buttonAfter s PaginatorButtonType.prev) =
          Option.some pb.hidden ∧
        Option.map PaginatorButton.label (buttonAfter s PaginatorButtonType.prev) =
          Option.some pb.loop_label ∧
        Option.map PaginatorButton.hidden (buttonAfter s PaginatorButtonType.next) =
          Option.some false ∧
        Option.map PaginatorButton.label (buttonAfter s PaginatorButtonType.next) =
          Option.some nb.normalLabel) ∧
      (s.current_page = s.page_count →
        Option.map PaginatorButton.hidden (buttonAfter s PaginatorButtonType.next) =
          Option.some nb.hidden ∧
        Option.map PaginatorButton.label (buttonAfter s PaginatorButtonType.next) =
          Option.some nb.loop_label ∧
        Option.map PaginatorButton.hidden (buttonAfter s PaginatorButtonType.prev) =
          Option.some false ∧
        Option.map PaginatorButton.label (buttonAfter s PaginatorButtonType.prev) =
          Option.some pb.normalLabel) ∧
      (0 < s.current_page → s.current_page < s.page_count →
        Option.map PaginatorButton.hidden (buttonAfter s PaginatorButtonType.prev) =
          Option.some false ∧
        Option.map PaginatorButton.label (buttonAfter s PaginatorButtonType.prev) =
          Option.some pb.normalLabel ∧
        Option.map PaginatorButton.hidden (buttonAfter s PaginatorButtonType.next) =
          Option.some false ∧
        Option.map PaginatorButton.label (buttonAfter s PaginatorButtonType.next) =
          Option.some nb.normalLabel)) := by
  have hf : dictLookup s.buttons PaginatorButtonType.first = Option.some b1 := by
    simp [hreg, dictLookup]
  have hlst : dictLookup s.buttons PaginatorButtonType.last = Option.some lb := by
    simp [hreg, dictLookup]
  have hnx : dictLookup s.buttons PaginatorButtonType.next = Option.some nb := by
    simp [hreg, dictLookup]
  have hpv : dictLookup s.buttons PaginatorButtonType.prev = Option.some pb := by
    simp [hreg, dictLookup]
  have hin : dictLookup s.buttons PaginatorButtonType.page_indicator = Option.some ib := by
    simp [hreg, dictLookup]
  obtain ⟨hsnd, hbtns⟩ := update_buttons_chr s b1 pb ib nb lb hf hlst hnx hpv hin
  have hprev : buttonAfter s PaginatorButtonType.prev =
      Option.some { prevComputed s.current_page s.loop_pages pb with
        disabled := (prevComputed s.current_page s.loop_pages pb).hidden } := by
    rw [buttonAfter, hbtns, dictLookup_renderButtons]
    by_cases hshi : s.show_indicator <;> simp [hshi]
  have hnext : buttonAfter s PaginatorButtonType.next =
      Option.some { nextComputed s.current_page s.page_count s.loop_pages nb with
        disabled := (nextComputed s.current_page s.page_count s.loop_pages nb).hidden } := by
    rw [buttonAfter, hbtns, dictLookup_renderButtons]
    by_cases hshi : s.show_indicator <;> simp [hshi]
  refine ⟨hsnd, ?_, ?_⟩
  · intro hl
    have hp4 : (0 : Int) ≤ s.current_page := h0
    refine ⟨?_, ?_, ?_, ?_⟩
    · rw [hprev]
      by_cases hc0 : s.current_page ≤ 0 <;>
        simp [prevComputed, hl, hc0, h0]
    · rw [hprev]
      by_cases hc0 : s.current_page ≤ 0 <;>
        simp [prevComputed, hl, hc0, h0]
    · rw [hnext]
      by_cases hce : s.current_page = s.page_count
      · simp [nextComputed, hl, hce]
      · have hlt : s.current_page < s.page_count := lt_of_le_of_ne h1 hce
        simp [nextComputed, hl, hce, hlt]
    · rw [hnext]
      by_cases hce : s.current_page = s.page_count
      · simp [nextComputed, hl, hce]
      · have hlt : s.current_page < s.page_count := lt_of_le_of_ne h1 hce
        simp [nextComputed, hl, hce, hlt]
  · intro hl
    refine ⟨?_, ?_, ?_⟩
    · intro hz
      have hne : ¬ (0 : Int) = s.page_count := by omega
      have hlt : (0 : Int) < s.page_count := by omega
      rw [hprev, hnext]
      simp [prevComputed, nextComputed, hl, hz, hne, hlt]
    · intro he
      have hc0 : ¬ s.page_count ≤ 0 := by omega
      have hge : (0 : Int) ≤ s.page_count := by omega
      rw [hprev, hnext]
      simp [prevComputed, nextComputed, hl, he, hc0, hge]
    · intro hgt hlt
      have hc0 : ¬ s.current_page ≤ 0 := by omega
      have hne : ¬ s.current_page = s.page_count := by omega
      rw [hprev, hnext]
      simp [prevComputed, nextComputed, hl, hc0, hne, hlt, h0]

/-- Witness for C6 amended at the concrete two-page paginator with the
default buttons, at page 0 of pages 0..1. -/
theorem c6_amended_witness :
    (Paginator.update_buttons readyTwoPages).snd = Option.none ∧
    (readyTwoPages.loop_pages = false →
      Option.map PaginatorButton.hidden
          (buttonAfter readyTwoPages PaginatorButtonType.prev) =
        Option.some (decide (readyTwoPages.current_page ≤ 0)) ∧
      Option.map PaginatorButton.label
          (buttonAfter readyTwoPages PaginatorButtonType.prev) =
        Option.some defBtnPrev.normalLabel ∧
      Option.map PaginatorButton.hidden
          (buttonAfter readyTwoPages PaginatorButtonType.next) =
        Option.some (decide (readyTwoPages.current_page = readyTwoPages.page_count)) ∧
      Option.map PaginatorButton.label
          (buttonAfter readyTwoPages PaginatorButtonType.next) =
        Option.some defBtnNext.normalLabel) ∧
    (readyTwoPages.loop_pages = true →
      (readyTwoPages.current_page = 0 →
        Option.map PaginatorButton.hidden
            (buttonAfter readyTwoPages PaginatorButtonType.prev) =
          Option.some defBtnPrev.hidden ∧
        Option.map PaginatorButton.label
            (buttonAfter readyTwoPages PaginatorButtonType.prev) =
          Option.some defBtnPrev.loop_label ∧
        Option.map PaginatorButton.hidden
            (buttonAfter readyTwoPages PaginatorButtonType.next) =
          Option.some false ∧
        Option.map PaginatorButton.label
            (buttonAfter readyTwoPages PaginatorButtonType.next) =
          Option.some defBtnNext.normalLabel) ∧
      (readyTwoPages.current_page = readyTwoPages.page_count →
        Option.map PaginatorButton.hidden
            (buttonAfter readyTwoPages PaginatorButtonType.next) =
          Option.some defBtnNext.hidden ∧
        Option.map PaginatorButton.label
            (buttonAfter readyTwoPages PaginatorButtonType.next) =
          Option.some defBtnNext.loop_label ∧
        Option.map PaginatorButton.hidden
            (buttonAfter readyTwoPages PaginatorButtonType.prev) =
          Option.some false ∧
        Option.map PaginatorButton.label
            (buttonAfter readyTwoPages PaginatorButtonType.prev) =
          Option.some defBtnPrev.normalLabel) ∧
      (0 < readyTwoPages.current_page → readyTwoPages.current_page < readyTwoPages.page_count →
        Option.map PaginatorButton.hidden
            (buttonAfter readyTwoPages PaginatorButtonType.prev) =
          Option.some false ∧
        Option.map PaginatorButton.label
            (buttonAfter readyTwoPages PaginatorButtonType.prev) =
          Option.some defBtnPrev.normalLabel ∧
        Option.map PaginatorButton.hidden
            (buttonAfter readyTwoPages PaginatorButtonType.next) =
          Option.some false ∧
        Option.map PaginatorButton.label
            (buttonAfter readyTwoPages PaginatorButtonType.next) =
          Option.some defBtnNext.normalLabel)) :=
  c6_amended readyTwoPages defBtnFirst defBtnPrev defBtnIndicator defBtnNext defBtnLast rfl
    (by decide) (by decide) (by decide)
